import Mathlib

/-!
Shallow embedding of the platformer simulation embedded in `marioOS1.0.py`
(class `MarioDemo`): the per-tick physics step `_update_physics`, the
axis-separated collision pass `_move_and_collide`, the enemy patrol logic
`_enemy_hits_edge`, the level layout built by `reset_level`, and the
geometry helpers `_rects_overlap` / `_rect_circle_overlap` / `clamp`.

Python floats are modelled as exact rationals; the score is a natural
number.  Each definition mirrors its source function line by line; the
stale player rectangle of `_move_and_collide` (computed once before the
platform loop and never refreshed) is reproduced faithfully.
-/

namespace MarioOS

/-- A rectangle as the 4-tuple `(x1, y1, x2, y2)` used by the geometry
helpers of `marioOS1.0.py` (left, top, right, bottom in screen space). -/
structure Rect where
  x0 : ℚ
  y0 : ℚ
  x1 : ℚ
  y1 : ℚ
deriving DecidableEq

/-- The player's kinematic body: the dict created in `reset_level`
(`x`, `y`, `w`, `h`, `vx`, `vy`, `on_ground`). -/
structure Body where
  x : ℚ
  y : ℚ
  w : ℚ
  h : ℚ
  vx : ℚ
  vy : ℚ
  on_ground : Bool
deriving DecidableEq

/-- A static platform rectangle `(x, y, w, h)`. -/
structure Platform where
  x : ℚ
  y : ℚ
  w : ℚ
  h : ℚ
deriving DecidableEq

/-- A coin `[x, y, r, alive]`. -/
structure Coin where
  x : ℚ
  y : ℚ
  r : ℚ
  alive : Bool
deriving DecidableEq

/-- An enemy dict (`x`, `y`, `w`, `h`, `vx`, `alive`). -/
structure Enemy where
  x : ℚ
  y : ℚ
  w : ℚ
  h : ℚ
  vx : ℚ
  alive : Bool
deriving DecidableEq

/-- The goal dict (`x`, `y`, `w`, `h`); its trigger rectangle spans from
`y - h` up to `y`. -/
structure GoalFlag where
  x : ℚ
  y : ℚ
  w : ℚ
  h : ℚ
deriving DecidableEq

/-- The sampled key state `self.keys` (`left`, `right`, `jump`). -/
structure Keys where
  left : Bool
  right : Bool
  jump : Bool
deriving DecidableEq

/-- The whole mutable simulation state owned by `MarioDemo`. -/
structure GameState where
  keys : Keys
  scroll_x : ℚ
  player : Body
  platforms : List Platform
  coins : List Coin
  enemies : List Enemy
  goal : GoalFlag
  score : ℕ
  win : Bool
deriving DecidableEq

/-- Source helper `clamp(v, lo, hi) = max(lo, min(hi, v))`. -/
def clamp (v lo hi : ℚ) : ℚ := max lo (min hi v)

/-- Source helper `_rects_overlap(a, b)`: overlap requires strict inequalities on both
axes (touching edges do not overlap). -/
def rectsOverlap (a b : Rect) : Bool :=
  !(decide (a.x1 ≤ b.x0) || decide (a.x0 ≥ b.x1) ||
    decide (a.y1 ≤ b.y0) || decide (a.y0 ≥ b.y1))

/-- The player's AABB `(x, y, x+w, y+h)`. -/
def bodyRect (p : Body) : Rect := ⟨p.x, p.y, p.x + p.w, p.y + p.h⟩

/-- A platform's AABB `(x, y, x+w, y+h)`. -/
def platRect (q : Platform) : Rect := ⟨q.x, q.y, q.x + q.w, q.y + q.h⟩

/-- An enemy's AABB `(x, y, x+w, y+h)`. -/
def enemyRect (e : Enemy) : Rect := ⟨e.x, e.y, e.x + e.w, e.y + e.h⟩

/-- The goal trigger rectangle `(x, y-h, x+w, y)` built in the goal check
of `_update_physics`. -/
def goalRect (g : GoalFlag) : Rect := ⟨g.x, g.y - g.h, g.x + g.w, g.y⟩

/-- Source helper `_rect_circle_overlap(rect, circle)`: clamp the circle centre into the
rectangle and compare the squared distance with the squared radius. -/
def rectCircleOverlap (r : Rect) (cx cy rad : ℚ) : Bool :=
  let nx := clamp cx r.x0 r.x1
  let ny := clamp cy r.y0 r.y1
  decide ((cx - nx) * (cx - nx) + (cy - ny) * (cy - ny) ≤ rad * rad)

/-- One iteration of the platform loop inside `_move_and_collide`.  `pr`
is the player rectangle computed once after the move; the source never
refreshes it while resolving, so every iteration tests and measures
overlap against this stale rectangle while mutating the live body `p`. -/
def resolvePlat (dx dy : ℚ) (pr : Rect) (p : Body) (q : Platform) : Body :=
  let r := platRect q
  if rectsOverlap pr r then
    let ox := min pr.x1 r.x1 - max pr.x0 r.x0
    let oy := min pr.y1 r.y1 - max pr.y0 r.y0
    if |ox| < |oy| then
      if dx > 0 then { p with x := p.x - ox, vx := 0 }
      else { p with x := p.x + ox, vx := 0 }
    else
      if dy > 0 then { p with y := p.y - oy, vy := 0, on_ground := true }
      else { p with y := p.y + oy, vy := 0 }
  else p

/-- Source method `_move_and_collide(p, dx, dy)`: apply the displacement, clear
`on_ground`, then scan all platforms resolving each overlap (against the
stale rectangle `pr`). -/
def moveAndCollide (plats : List Platform) (dx dy : ℚ) (p0 : Body) : Body :=
  let p1 : Body := { p0 with x := p0.x + dx, y := p0.y + dy, on_ground := false }
  let pr := bodyRect p1
  plats.foldl (resolvePlat dx dy pr) p1

/-- Source method `_enemy_hits_edge(e)`: at the prospective next position `x + vx`,
either the projected AABB overlaps a platform other than "on top"
(bottom within 2 of the platform top), or no platform lies in the support
band under the projected horizontal centre. -/
def enemyHitsEdge (plats : List Platform) (e : Enemy) : Bool :=
  let nx := e.x + e.vx
  let er : Rect := ⟨nx, e.y, nx + e.w, e.y + e.h⟩
  let wall := plats.any fun q =>
    rectsOverlap er (platRect q) && !(decide (e.y + e.h ≤ q.y + 2))
  let below := plats.any fun q =>
    (decide (nx + e.w / 2 ≥ q.x) && decide (nx + e.w / 2 ≤ q.x + q.w)) &&
    (decide (e.y + e.h + 2 ≥ q.y) && decide (e.y + e.h ≤ q.y + 6))
  wall || !below

/-- The movement half of one enemy iteration in `_update_physics`: a dead
enemy is skipped, a living one advances by `vx` and reverses `vx` when
`_enemy_hits_edge` fires at the moved position. -/
def moveEnemy (plats : List Platform) (e : Enemy) : Enemy :=
  if e.alive then
    let e1 : Enemy := { e with x := e.x + e.vx }
    if enemyHitsEdge plats e1 then { e1 with vx := -e1.vx } else e1
  else e

/-- The stomp test of `_update_physics`: falling (`vy > 0`) with the
player's bottom edge minus the 6-unit tolerance at or above the enemy's
top edge. -/
def stompCond (p : Body) (e : Enemy) : Bool :=
  decide (p.vy > 0) && decide (p.y + p.h - 6 ≤ e.y)

/-- The coin pickup test: a living coin overlapping the player rect. -/
def coinHit (pr : Rect) (c : Coin) : Bool :=
  c.alive && rectCircleOverlap pr c.x c.y c.r

/-- The effect of the coin loop on one coin. -/
def coinUpd (pr : Rect) (c : Coin) : Coin :=
  if coinHit pr c then { c with alive := false } else c

/-- The coin loop of `_update_physics`: each living coin overlapping the
player rect is marked dead and adds 100 to the score. -/
def coinsRun (pr : Rect) : List Coin → ℕ → List Coin × ℕ
  | [], sc => ([], sc)
  | c :: cs, sc =>
    if coinHit pr c then
      let res := coinsRun pr cs (sc + 100)
      ({ c with alive := false } :: res.1, res.2)
    else
      let res := coinsRun pr cs sc
      (c :: res.1, res.2)

/-- The enemy loop of `_update_physics`: each living enemy moves, may
reverse at an edge, and is then tested against the player rectangle `pr`
(the rectangle from the coin pass; the player's position does not change
during the loop).  A stomp kills the enemy, adds 200 and sets the
player's `vy` to `-8`; any other contact resets the level, modelled by
returning `none` (the `return` that aborts the rest of the tick).  The
movement half is written through `moveEnemy`, whose own alive test is
redundant under the `e.alive` guard of this loop. -/
def runEnemies (pr : Rect) (plats : List Platform) :
    Body → ℕ → List Enemy → Option (Body × ℕ × List Enemy)
  | p, sc, [] => some (p, sc, [])
  | p, sc, e :: rest =>
    if e.alive then
      let e2 : Enemy := moveEnemy plats e
      if rectsOverlap pr (enemyRect e2) then
        if stompCond p e2 then
          match runEnemies pr plats { p with vy := -8 } (sc + 200) rest with
          | none => none
          | some (p', sc', es') => some (p', sc', { e2 with alive := false } :: es')
        else none
      else
        match runEnemies pr plats p sc rest with
        | none => none
        | some (p', sc', es') => some (p', sc', e2 :: es')
    else
      match runEnemies pr plats p sc rest with
      | none => none
      | some (p', sc', es') => some (p', sc', e :: es')

/-- The twenty ground blocks `(i, 360, 80, 120)` for `i = 0, 80, …, 1520`. -/
def groundPlatforms : List Platform :=
  (List.range 20).map fun i => ⟨80 * (i : ℚ), 360, 80, 120⟩

/-- The nine floating platforms of `reset_level`. -/
def floatingPlatforms : List Platform :=
  [⟨220, 300, 80, 16⟩, ⟨320, 260, 80, 16⟩, ⟨420, 220, 80, 16⟩,
   ⟨600, 300, 80, 16⟩, ⟨700, 260, 80, 16⟩, ⟨820, 220, 80, 16⟩,
   ⟨980, 280, 80, 16⟩, ⟨1080, 240, 80, 16⟩, ⟨1180, 200, 80, 16⟩]

/-- All platforms of the generated level, ground first. -/
def levelPlatforms : List Platform := groundPlatforms ++ floatingPlatforms

/-- The nine coins of `reset_level`, radius 8 at height 180. -/
def levelCoins : List Coin :=
  [260, 360, 460, 620, 720, 840, 1000, 1100, 1200].map fun x => ⟨x, 180, 8, true⟩

/-- The single goomba-like enemy at `(520, ground_y - 20)`. -/
def initialEnemy : Enemy := ⟨520, 340, 28, 20, -1, true⟩

/-- The goal flag dict `(1400, 280, 12, 120)`. -/
def levelGoal : GoalFlag := ⟨1400, 280, 12, 120⟩

/-- The freshly initialised player body of `reset_level`. -/
def initialPlayer : Body := ⟨80, 320, 24, 32, 0, 0, false⟩

/-- The state built by `reset_level`: keys cleared, scroll zeroed, fixed
platform/coin/enemy/goal layout, score 0, `win` cleared. -/
def resetState : GameState :=
  ⟨⟨false, false, false⟩, 0, initialPlayer, levelPlatforms, levelCoins,
   [initialEnemy], levelGoal, 0, false⟩

/-- Source method `reset_level` discards the previous state entirely. -/
def resetLevel (_s : GameState) : GameState := resetState

/-- The velocity integration at the top of `_update_physics`: input
acceleration of ±0.8, friction ×0.9, clamp to ±4; gravity +0.8, clamp to
±12. -/
def integrate (s : GameState) : GameState :=
  let p := s.player
  let ax : ℚ := (if s.keys.left then -(4 / 5 : ℚ) else 0) +
    (if s.keys.right then (4 / 5 : ℚ) else 0)
  let vx1 := clamp ((p.vx + ax) * (9 / 10)) (-4) 4
  let vy1 := clamp (p.vy + 4 / 5) (-12) 12
  { s with player := { p with vx := vx1, vy := vy1 } }

/-- The two collision passes: `_move_and_collide(p, vx, 0)` then
`_move_and_collide(p, 0, vy)` with the vertical velocity read after the
first pass. -/
def collidePasses (s : GameState) : GameState :=
  let p1 := moveAndCollide s.platforms s.player.vx 0 s.player
  let p2 := moveAndCollide s.platforms 0 p1.vy p1
  { s with player := p2 }

/-- The jump step: if the jump key is held and the player is grounded,
set `vy` to `-10` and clear `on_ground`. -/
def jumpPhase (s : GameState) : GameState :=
  if s.keys.jump && s.player.on_ground then
    { s with player := { s.player with vy := -10, on_ground := false } }
  else s

/-- The scrolling step on the scalar scroll offset: dead-zone at 0.6 and
0.3 of the 800-wide viewport (both tests read the centre computed before
either update), clamped to `[0, 1600 - 800]`. -/
def cameraUpd (px scroll : ℚ) : ℚ :=
  let c := px - scroll
  let s1 := if c > 800 * (3 / 5 : ℚ) then px - 800 * (3 / 5 : ℚ) else scroll
  let s2 := if c < 800 * (3 / 10 : ℚ) then px - 800 * (3 / 10 : ℚ) else s1
  clamp s2 0 (1600 - 800)

/-- The scrolling step applied to the game state. -/
def cameraPhase (s : GameState) : GameState :=
  { s with scroll_x := cameraUpd s.player.x s.scroll_x }

/-- The player-only part of `_update_physics`: integration, the two
collision passes, the jump, and the camera update, in source order. -/
def prePlayer (s : GameState) : GameState :=
  cameraPhase (jumpPhase (collidePasses (integrate s)))

/-- The coin loop applied to the game state (the player rectangle `pr` is
computed here and reused by the enemy and goal checks). -/
def coinPhase (s : GameState) : GameState :=
  let pr := bodyRect s.player
  let res := coinsRun pr s.coins s.score
  { s with coins := res.1, score := res.2 }

/-- The state after a surviving enemy loop and the goal check: player,
score and enemy list replaced by the loop's results, and the goal overlap
ORed into `win`; every other field is untouched. -/
def postEnemyState (s : GameState) (p : Body) (sc : ℕ) (es : List Enemy) : GameState :=
  { s with player := p, score := sc, enemies := es,
           win := s.win || rectsOverlap (bodyRect s.player) (goalRect s.goal) }

/-- The enemy loop followed by the goal check.  A death resets the level
and aborts the tick (skipping the goal check); otherwise the goal overlap
is ORed into `win` and nothing else changes (the goal check reuses the
player rectangle computed before the loop; the loop never moves the
player). -/
def enemyGoalPhase (s : GameState) : GameState :=
  match runEnemies (bodyRect s.player) s.platforms s.player s.score s.enemies with
  | none => resetState
  | some (p, sc, es) =>
    { s with player := p, score := sc, enemies := es,
             win := s.win || rectsOverlap (bodyRect s.player) (goalRect s.goal) }

/-- The state after the coin pass, just before the enemy loop. -/
def midState (s : GameState) : GameState := coinPhase (prePlayer s)

/-- The outcome of the enemy loop on the current tick (`none` = death). -/
def enemyOutcome (s : GameState) : Option (Body × ℕ × List Enemy) :=
  runEnemies (bodyRect (midState s).player) (midState s).platforms
    (midState s).player (midState s).score (midState s).enemies

/-- Whether the current tick completes without a death reset. -/
def tickSurvives (s : GameState) : Bool := (enemyOutcome s).isSome

/-- Source method `_update_physics`, the whole fixed-step tick, in source order. -/
def updatePhysics (s : GameState) : GameState := enemyGoalPhase (midState s)

/-- One tick driven by a sampled key state. -/
def tickWith (k : Keys) (s : GameState) : GameState :=
  updatePhysics { s with keys := k }

/-- Run a whole schedule of per-tick key states. -/
def runSchedule (ks : List Keys) (s : GameState) : GameState :=
  ks.foldl (fun s k => tickWith k s) s

/-- Modelled from the spec: the interaction half of the enemy loop alone,
applied to a list of already-moved enemies — the Simulation Clock
contract asks for an Interaction Evaluator pass that runs after the Enemy
Controller has stepped every enemy.  Same stomp/death rules as
`runEnemies`, without the movement half. -/
def checkEnemies (pr : Rect) : Body → ℕ → List Enemy → Option (Body × ℕ × List Enemy)
  | p, sc, [] => some (p, sc, [])
  | p, sc, e :: rest =>
    if e.alive then
      if rectsOverlap pr (enemyRect e) then
        if stompCond p e then
          match checkEnemies pr { p with vy := -8 } (sc + 200) rest with
          | none => none
          | some (p', sc', es') => some (p', sc', { e with alive := false } :: es')
        else none
      else
        match checkEnemies pr p sc rest with
        | none => none
        | some (p', sc', es') => some (p', sc', e :: es')
    else
      match checkEnemies pr p sc rest with
      | none => none
      | some (p', sc', es') => some (p', sc', e :: es')

/-- Modelled from the spec: the Enemy Controller pass alone — every enemy
is stepped (moved and possibly reversed) before any interaction runs. -/
def enemyMovePhase (s : GameState) : GameState :=
  { s with enemies := s.enemies.map (moveEnemy s.platforms) }

/-- Modelled from the spec: the Interaction Evaluator pass — coin pickup,
then stomp/death with abort-on-death, then the goal check. -/
def interactionPhase (s : GameState) : GameState :=
  let s1 := coinPhase s
  let pr := bodyRect s1.player
  match checkEnemies pr s1.player s1.score s1.enemies with
  | none => resetState
  | some (p, sc, es) =>
    { s1 with player := p, score := sc, enemies := es,
              win := s1.win || rectsOverlap pr (goalRect s1.goal) }

/-- Modelled from the spec: the tick in the order stated by the Simulation
Clock contract — player phases, then the Enemy Controller step for each
enemy, then one Interaction Evaluator pass. -/
def specOrderTick (s : GameState) : GameState :=
  interactionPhase (enemyMovePhase (prePlayer s))

/-- Strictly positive overlap on both axes: the intersection of the two
rectangles has positive width and positive height. -/
def posArea (a b : Rect) : Prop :=
  max a.x0 b.x0 < min a.x1 b.x1 ∧ max a.y0 b.y0 < min a.y1 b.y1

/-- Boolean form of `posArea`. -/
def posOverlap (a b : Rect) : Bool :=
  decide (max a.x0 b.x0 < min a.x1 b.x1) && decide (max a.y0 b.y0 < min a.y1 b.y1)

/-- Whether the player's AABB has positive-area overlap with some
platform of the level. -/
def playerPenetrates (s : GameState) : Bool :=
  s.platforms.any fun q => posOverlap (bodyRect s.player) (platRect q)

/-- Keyboard schedule: hold right and jump for 32 consecutive ticks. -/
def c1Schedule : List Keys := List.replicate 32 ⟨false, true, true⟩

/-- Velocity bounds stated by the spec: `vx` within ±4, `vy` within ±12. -/
def velOK (p : Body) : Prop :=
  -4 ≤ p.vx ∧ p.vx ≤ 4 ∧ -12 ≤ p.vy ∧ p.vy ≤ 12

/-- Concrete enemy used to exercise the stomp branch: directly under the
player, top edge below the player's bottom minus the tolerance. -/
def eW3 : Enemy := ⟨0, 28, 28, 20, 0, true⟩

/-- Concrete single-enemy state used to exercise the stomp branch. -/
def sW3 : GameState :=
  ⟨⟨false, false, false⟩, 0, ⟨0, 0, 24, 32, 0, 0, false⟩, [], [], [eW3],
   ⟨100, 280, 12, 120⟩, 0, false⟩

/-- Concrete platform for the enemy-reversal counterexample: wide, with
its top at 10. -/
def q8 : Platform := ⟨0, 10, 100, 20⟩

/-- Concrete enemy for the reversal counterexample: its projected AABB is
strictly inside the platform horizontally and dips 5 units into its top. -/
def e8 : Enemy := ⟨40, -5, 20, 20, -1, true⟩

/-- Concrete enemy on empty geometry (ledge detection fires). -/
def e8w : Enemy := ⟨0, 0, 28, 20, -1, true⟩

/-- Concrete player body touching but not overlapping `q10`/`e10`. -/
def p10 : Body := ⟨0, 0, 24, 32, 0, 0, false⟩

/-- Platform touching the player's right edge (zero-area contact). -/
def q10 : Platform := ⟨24, 0, 80, 16⟩

/-- Enemy touching the player's bottom edge (zero-area contact). -/
def e10 : Enemy := ⟨0, 32, 28, 20, 0, true⟩

/-- Goal far away from the player. -/
def g10 : GoalFlag := ⟨100, 280, 12, 120⟩

@[simp] theorem integrate_coins (s : GameState) : (integrate s).coins = s.coins := rfl

@[simp] theorem integrate_score (s : GameState) : (integrate s).score = s.score := rfl

@[simp] theorem integrate_enemies (s : GameState) : (integrate s).enemies = s.enemies := rfl

@[simp] theorem integrate_platforms (s : GameState) : (integrate s).platforms = s.platforms := rfl

@[simp] theorem integrate_win (s : GameState) : (integrate s).win = s.win := rfl

@[simp] theorem integrate_goal (s : GameState) : (integrate s).goal = s.goal := rfl

@[simp] theorem integrate_scroll (s : GameState) : (integrate s).scroll_x = s.scroll_x := rfl

@[simp] theorem collidePasses_coins (s : GameState) : (collidePasses s).coins = s.coins := rfl

@[simp] theorem collidePasses_score (s : GameState) : (collidePasses s).score = s.score := rfl

@[simp] theorem collidePasses_enemies (s : GameState) : (collidePasses s).enemies = s.enemies := rfl

@[simp] theorem collidePasses_platforms (s : GameState) :
    (collidePasses s).platforms = s.platforms := rfl

@[simp] theorem collidePasses_win (s : GameState) : (collidePasses s).win = s.win := rfl

@[simp] theorem collidePasses_goal (s : GameState) : (collidePasses s).goal = s.goal := rfl

@[simp] theorem collidePasses_scroll (s : GameState) :
    (collidePasses s).scroll_x = s.scroll_x := rfl

@[simp] theorem jumpPhase_coins (s : GameState) : (jumpPhase s).coins = s.coins := by
  unfold jumpPhase; split <;> rfl

@[simp] theorem jumpPhase_score (s : GameState) : (jumpPhase s).score = s.score := by
  unfold jumpPhase; split <;> rfl

@[simp] theorem jumpPhase_enemies (s : GameState) : (jumpPhase s).enemies = s.enemies := by
  unfold jumpPhase; split <;> rfl

@[simp] theorem jumpPhase_platforms (s : GameState) : (jumpPhase s).platforms = s.platforms := by
  unfold jumpPhase; split <;> rfl

@[simp] theorem jumpPhase_win (s : GameState) : (jumpPhase s).win = s.win := by
  unfold jumpPhase; split <;> rfl

@[simp] theorem jumpPhase_goal (s : GameState) : (jumpPhase s).goal = s.goal := by
  unfold jumpPhase; split <;> rfl

@[simp] theorem jumpPhase_scroll (s : GameState) : (jumpPhase s).scroll_x = s.scroll_x := by
  unfold jumpPhase; split <;> rfl

@[simp] theorem cameraPhase_coins (s : GameState) : (cameraPhase s).coins = s.coins := rfl

@[simp] theorem cameraPhase_score (s : GameState) : (cameraPhase s).score = s.score := rfl

@[simp] theorem cameraPhase_enemies (s : GameState) : (cameraPhase s).enemies = s.enemies := rfl

@[simp] theorem cameraPhase_platforms (s : GameState) :
    (cameraPhase s).platforms = s.platforms := rfl

@[simp] theorem cameraPhase_win (s : GameState) : (cameraPhase s).win = s.win := rfl

@[simp] theorem cameraPhase_goal (s : GameState) : (cameraPhase s).goal = s.goal := rfl

@[simp] theorem cameraPhase_player (s : GameState) : (cameraPhase s).player = s.player := rfl

@[simp] theorem cameraPhase_scroll (s : GameState) :
    (cameraPhase s).scroll_x = cameraUpd s.player.x s.scroll_x := rfl

@[simp] theorem coinPhase_player (s : GameState) : (coinPhase s).player = s.player := rfl

@[simp] theorem coinPhase_enemies (s : GameState) : (coinPhase s).enemies = s.enemies := rfl

@[simp] theorem coinPhase_platforms (s : GameState) : (coinPhase s).platforms = s.platforms := rfl

@[simp] theorem coinPhase_win (s : GameState) : (coinPhase s).win = s.win := rfl

@[simp] theorem coinPhase_goal (s : GameState) : (coinPhase s).goal = s.goal := rfl

@[simp] theorem coinPhase_scroll (s : GameState) : (coinPhase s).scroll_x = s.scroll_x := rfl

@[simp] theorem coinPhase_coins (s : GameState) :
    (coinPhase s).coins = (coinsRun (bodyRect s.player) s.coins s.score).1 := rfl

@[simp] theorem coinPhase_score (s : GameState) :
    (coinPhase s).score = (coinsRun (bodyRect s.player) s.coins s.score).2 := rfl

@[simp] theorem postEnemyState_player (s : GameState) (p : Body) (sc : ℕ) (es : List Enemy) :
    (postEnemyState s p sc es).player = p := rfl

@[simp] theorem postEnemyState_score (s : GameState) (p : Body) (sc : ℕ) (es : List Enemy) :
    (postEnemyState s p sc es).score = sc := rfl

@[simp] theorem postEnemyState_enemies (s : GameState) (p : Body) (sc : ℕ) (es : List Enemy) :
    (postEnemyState s p sc es).enemies = es := rfl

@[simp] theorem postEnemyState_coins (s : GameState) (p : Body) (sc : ℕ) (es : List Enemy) :
    (postEnemyState s p sc es).coins = s.coins := rfl

@[simp] theorem postEnemyState_scroll (s : GameState) (p : Body) (sc : ℕ) (es : List Enemy) :
    (postEnemyState s p sc es).scroll_x = s.scroll_x := rfl

@[simp] theorem postEnemyState_win (s : GameState) (p : Body) (sc : ℕ) (es : List Enemy) :
    (postEnemyState s p sc es).win =
      (s.win || rectsOverlap (bodyRect s.player) (goalRect s.goal)) := rfl

/-- When the enemy loop survives, the tick's tail is the post-enemy state
with only `win` recomputed by the goal check. -/
theorem enemyGoalPhase_some (s : GameState) (p : Body) (sc : ℕ) (es : List Enemy)
    (h : runEnemies (bodyRect s.player) s.platforms s.player s.score s.enemies =
      some (p, sc, es)) :
    enemyGoalPhase s = postEnemyState s p sc es := by
  unfold enemyGoalPhase
  rw [h]
  rfl

/-- The helper `clamp` lands in `[lo, hi]` whenever the interval is nonempty. -/
theorem clamp_mem (v lo hi : ℚ) (h : lo ≤ hi) : lo ≤ clamp v lo hi ∧ clamp v lo hi ≤ hi :=
  ⟨le_max_left lo _, max_le h (min_le_left hi v)⟩

/-- The overlap test is strict on both axes. -/
theorem rectsOverlap_eq_true_iff (a b : Rect) :
    rectsOverlap a b = true ↔ (b.x0 < a.x1 ∧ a.x0 < b.x1 ∧ b.y0 < a.y1 ∧ a.y0 < b.y1) := by
  simp only [rectsOverlap, Bool.not_eq_true', Bool.or_eq_false_iff, decide_eq_false_iff_not,
    not_le, ge_iff_le]
  tauto

set_option maxRecDepth 100000 in
/-- C1: the spec asserts zero residual penetration after every tick, but
the code violates it on a reachable trajectory: from the freshly reset
level, holding right and jump for 32 ticks leaves the player's AABB in
positive-area overlap with a platform at the end of tick 32
(`_move_and_collide` resolves against a rectangle it never refreshes and
pushes along an axis whose displacement is zero toward the platform's
interior). -/
theorem c1_residual_penetration :
    playerPenetrates (runSchedule c1Schedule resetState) = true := by
  with_unfolding_all decide

/-- C7: level generation/reset is a constant function — any two reset
invocations agree structurally on platforms, coins, enemies and goal, and
reset zeroes the score and reinitialises the player body and scroll
offset. -/
theorem c7_generation_deterministic (s t : GameState) :
    resetLevel s = resetLevel t ∧ resetLevel s = resetState ∧
    (resetLevel s).platforms = levelPlatforms ∧ (resetLevel s).coins = levelCoins ∧
    (resetLevel s).enemies = [initialEnemy] ∧ (resetLevel s).goal = levelGoal ∧
    (resetLevel s).score = 0 ∧ (resetLevel s).player = initialPlayer ∧
    (resetLevel s).scroll_x = 0 ∧ (resetLevel s).win = false :=
  ⟨rfl, rfl, rfl, rfl, rfl, rfl, rfl, rfl, rfl, rfl⟩

/-- Nondegenerate rectangles without positive-area intersection do not
overlap under `_rects_overlap`. -/
theorem rectsOverlap_eq_false_of_not_posArea (a b : Rect)
    (ha : a.x0 < a.x1 ∧ a.y0 < a.y1) (hb : b.x0 < b.x1 ∧ b.y0 < b.y1)
    (hab : ¬ posArea a b) : rectsOverlap a b = false := by
  rw [← Bool.not_eq_true, rectsOverlap_eq_true_iff]
  rintro ⟨h1, h2, h3, h4⟩
  exact hab ⟨max_lt_iff.mpr ⟨lt_min_iff.mpr ⟨ha.1, h2⟩, lt_min_iff.mpr ⟨h1, hb.1⟩⟩,
    max_lt_iff.mpr ⟨lt_min_iff.mpr ⟨ha.2, h4⟩, lt_min_iff.mpr ⟨h3, hb.2⟩⟩⟩

/-- C10: rectangles that merely touch (no strictly positive overlap on
both axes) do not overlap under `_rects_overlap`, and consequently
trigger no platform resolution, no stomp/death interaction, and no goal
event. -/
theorem c10_zero_area_no_event (a b : Rect) (p : Body) (q : Platform) (e : Enemy)
    (g : GoalFlag) (dx dy : ℚ) (sc : ℕ) (w : Bool)
    (ha : a.x0 < a.x1 ∧ a.y0 < a.y1) (hb : b.x0 < b.x1 ∧ b.y0 < b.y1)
    (hab : ¬ posArea a b)
    (hp : 0 < p.w ∧ 0 < p.h) (hqd : 0 < q.w ∧ 0 < q.h)
    (hed : 0 < e.w ∧ 0 < e.h) (hgd : 0 < g.w ∧ 0 < g.h)
    (hq : ¬ posArea (bodyRect p) (platRect q))
    (he : ¬ posArea (bodyRect p) (enemyRect e))
    (hg : ¬ posArea (bodyRect p) (goalRect g)) :
    rectsOverlap a b = false ∧
    rectsOverlap (bodyRect p) (platRect q) = false ∧
    resolvePlat dx dy (bodyRect p) p q = p ∧
    checkEnemies (bodyRect p) p sc [e] = some (p, sc, [e]) ∧
    (w || rectsOverlap (bodyRect p) (goalRect g)) = w := by
  have hpd : (bodyRect p).x0 < (bodyRect p).x1 ∧ (bodyRect p).y0 < (bodyRect p).y1 := by
    constructor <;> simp [bodyRect] <;> [exact hp.1; exact hp.2]
  have hq' : rectsOverlap (bodyRect p) (platRect q) = false := by
    refine rectsOverlap_eq_false_of_not_posArea _ _ hpd ?_ hq
    constructor <;> simp [platRect] <;> [exact hqd.1; exact hqd.2]
  have he' : rectsOverlap (bodyRect p) (enemyRect e) = false := by
    refine rectsOverlap_eq_false_of_not_posArea _ _ hpd ?_ he
    constructor <;> simp [enemyRect] <;> [exact hed.1; exact hed.2]
  have hg' : rectsOverlap (bodyRect p) (goalRect g) = false := by
    refine rectsOverlap_eq_false_of_not_posArea _ _ hpd ?_ hg
    constructor <;> simp [goalRect] <;> [exact hgd.1; exact hgd.2]
  refine ⟨rectsOverlap_eq_false_of_not_posArea a b ha hb hab, hq', ?_, ?_, ?_⟩
  · simp [resolvePlat, hq']
  · cases hal : e.alive <;> simp [checkEnemies, hal, he']
  · rw [hg']; exact Bool.or_false w

/-- C10 witness: concrete zero-area contacts produce no overlap, no
resolution, no interaction and no goal event. -/
theorem c10_zero_area_witness :
    rectsOverlap ⟨0, 0, 10, 10⟩ ⟨10, 0, 20, 10⟩ = false ∧
    rectsOverlap (bodyRect p10) (platRect q10) = false ∧
    resolvePlat 1 1 (bodyRect p10) p10 q10 = p10 ∧
    checkEnemies (bodyRect p10) p10 5 [e10] = some (p10, 5, [e10]) ∧
    (false || rectsOverlap (bodyRect p10) (goalRect g10)) = false :=
  c10_zero_area_no_event ⟨0, 0, 10, 10⟩ ⟨10, 0, 20, 10⟩ p10 q10 e10 g10 1 1 5 false
    (by norm_num) (by norm_num)
    (by simp only [posArea]; with_unfolding_all decide)
    (by with_unfolding_all decide) (by with_unfolding_all decide)
    (by with_unfolding_all decide) (by with_unfolding_all decide)
    (by simp only [posArea]; with_unfolding_all decide)
    (by simp only [posArea]; with_unfolding_all decide)
    (by simp only [posArea]; with_unfolding_all decide)

/-- C8 counterexample: the claim says reversal happens only on a
vertical-side overlap (top overlap alone not counting) or a missing
support platform, but here the projected AABB is strictly inside the
platform horizontally (touching no vertical side), the platform spans
beneath the projected centre, and the enemy still reverses, because the
code treats any overlap deeper than 2 units below the platform top as a
wall hit. -/
theorem c8_reversal_counterexample :
    (moveEnemy [q8] e8).vx = -e8.vx ∧
    (q8.x < e8.x + e8.vx + e8.vx ∧ e8.x + e8.vx + e8.vx + e8.w < q8.x + q8.w) ∧
    (q8.x ≤ e8.x + e8.vx + e8.vx + e8.w / 2 ∧
     e8.x + e8.vx + e8.vx + e8.w / 2 ≤ q8.x + q8.w ∧
     e8.y + e8.h ≤ q8.y + q8.h) := by
  with_unfolding_all decide

/-- C8 (amended): a dead enemy is skipped entirely; a living one first
advances by its patrol velocity and then reverses exactly when
`_enemy_hits_edge` fires at the moved position, which holds iff at the
prospective next position either (a) the projected AABB overlaps a
platform with the enemy's bottom more than 2 units below that platform's
top, or (b) no platform's horizontal span contains the projected centre
with its top inside the support band `[bottom - 6, bottom + 2]`. -/
theorem c8_enemy_step (plats : List Platform) (e : Enemy) :
    (e.alive = false → moveEnemy plats e = e) ∧
    (e.alive = true →
      moveEnemy plats e =
        (if enemyHitsEdge plats { e with x := e.x + e.vx } = true
         then { e with x := e.x + e.vx, vx := -e.vx }
         else { e with x := e.x + e.vx })) ∧
    (∀ f : Enemy, enemyHitsEdge plats f = true ↔
      ((∃ q ∈ plats,
          rectsOverlap ⟨f.x + f.vx, f.y, f.x + f.vx + f.w, f.y + f.h⟩ (platRect q) = true ∧
          ¬(f.y + f.h ≤ q.y + 2)) ∨
       ¬(∃ q ∈ plats,
          (q.x ≤ f.x + f.vx + f.w / 2 ∧ f.x + f.vx + f.w / 2 ≤ q.x + q.w) ∧
          (q.y ≤ f.y + f.h + 2 ∧ f.y + f.h ≤ q.y + 6)))) := by
  refine ⟨fun h => by simp [moveEnemy, h], fun h => by simp only [moveEnemy, h, if_true],
    fun f => ?_⟩
  simp [enemyHitsEdge, List.any_eq_true, Bool.and_eq_true, decide_eq_true_eq,
      Bool.not_eq_true', decide_eq_false_iff_not, not_le, ge_iff_le, and_assoc]

/-- C8 witness: on empty geometry the ledge test fires, so a living enemy
moves and reverses. -/
theorem c8_enemy_step_witness :
    moveEnemy [] e8w = { e8w with x := e8w.x + e8w.vx, vx := -e8w.vx } := by
  rw [(c8_enemy_step [] e8w).2.1 rfl]
  with_unfolding_all decide

/-- The camera result always lies inside the level bounds. -/
theorem cameraUpd_bounds (px scroll : ℚ) :
    0 ≤ cameraUpd px scroll ∧ cameraUpd px scroll ≤ 800 := by
  unfold cameraUpd clamp
  exact ⟨le_max_left _ _, max_le (by norm_num) (le_trans (min_le_left _ _) (by norm_num))⟩

/-- Case analysis of the camera step (the second dead-zone test reads the
centre computed before the first update, and the two zones are
disjoint). -/
theorem cameraUpd_cases (px scroll : ℚ) :
    (px - scroll > 800 * (3 / 5) ∧
      cameraUpd px scroll = clamp (px - 800 * (3 / 5)) 0 (1600 - 800)) ∨
    (px - scroll < 800 * (3 / 10) ∧ ¬(px - scroll > 800 * (3 / 5)) ∧
      cameraUpd px scroll = clamp (px - 800 * (3 / 10)) 0 (1600 - 800)) ∨
    (¬(px - scroll > 800 * (3 / 5)) ∧ ¬(px - scroll < 800 * (3 / 10)) ∧
      cameraUpd px scroll = clamp scroll 0 (1600 - 800)) := by
  by_cases h1 : px - scroll > 800 * (3 / 5)
  · have h2 : ¬(px - scroll < 800 * (3 / 10)) := by
      simp only [not_lt]; nlinarith
    exact Or.inl ⟨h1, by simp [cameraUpd, h1, h2]⟩
  · by_cases h2 : px - scroll < 800 * (3 / 10)
    · exact Or.inr (Or.inl ⟨h2, h1, by simp [cameraUpd, h1, h2]⟩)
    · exact Or.inr (Or.inr ⟨h1, h2, by simp [cameraUpd, h1, h2]⟩)

/-- C5: after the camera update the scroll offset lies in
`[0, 1600 - 800]`, it strictly advances only when the on-screen x exceeds
0.6 of the viewport width and strictly retreats only when it drops below
0.3 of it; moreover every tick leaves the stored scroll offset inside the
bounds. -/
theorem c5_camera (px scroll : ℚ) (h0 : 0 ≤ scroll) (h1 : scroll ≤ 800) :
    (0 ≤ cameraUpd px scroll ∧ cameraUpd px scroll ≤ 800) ∧
    (scroll < cameraUpd px scroll → px - scroll > 800 * (3 / 5)) ∧
    (cameraUpd px scroll < scroll → px - scroll < 800 * (3 / 10)) ∧
    (∀ s : GameState, 0 ≤ (updatePhysics s).scroll_x ∧ (updatePhysics s).scroll_x ≤ 800) := by
  refine ⟨cameraUpd_bounds px scroll, ?_, ?_, ?_⟩
  · intro hadv
    rcases cameraUpd_cases px scroll with ⟨hc, _⟩ | ⟨hc, _, heq⟩ | ⟨_, hc, heq⟩
    · exact hc
    · exfalso
      have hle : cameraUpd px scroll ≤ scroll := by
        rw [heq]; unfold clamp
        exact max_le h0 (le_trans (min_le_right _ _) (by linarith))
      linarith
    · exfalso
      have heqs : cameraUpd px scroll = scroll := by
        rw [heq]; unfold clamp
        rw [min_eq_right (by linarith), max_eq_right h0]
      linarith
  · intro hret
    rcases cameraUpd_cases px scroll with ⟨hc, heq⟩ | ⟨hc, _, _⟩ | ⟨_, hc, heq⟩
    · exfalso
      have hge : scroll ≤ cameraUpd px scroll := by
        rw [heq]; unfold clamp
        exact le_trans (le_min (by linarith) (by linarith)) (le_max_right _ _)
      linarith
    · exact hc
    · exfalso
      have heqs : cameraUpd px scroll = scroll := by
        rw [heq]; unfold clamp
        rw [min_eq_right (by linarith), max_eq_right h0]
      linarith
  · intro s
    unfold updatePhysics enemyGoalPhase
    rcases hr : runEnemies (bodyRect (midState s).player) (midState s).platforms
      (midState s).player (midState s).score (midState s).enemies with _ | ⟨p, sc, es⟩
    · simp only [hr]
      exact ⟨le_refl _, by norm_num [resetState]⟩
    · simp only [hr]
      have : (midState s).scroll_x =
          cameraUpd (jumpPhase (collidePasses (integrate s))).player.x
            (jumpPhase (collidePasses (integrate s))).scroll_x := by
        simp [midState, prePlayer]
      simp only [this]
      exact cameraUpd_bounds _ _

/-- C5 witness: instantiated at the initial camera state. -/
theorem c5_camera_witness :
    (0 ≤ cameraUpd 0 0 ∧ cameraUpd 0 0 ≤ 800) ∧
    (0 < cameraUpd 0 0 → (0 : ℚ) - 0 > 800 * (3 / 5)) ∧
    (cameraUpd 0 0 < 0 → (0 : ℚ) - 0 < 800 * (3 / 10)) ∧
    (∀ s : GameState, 0 ≤ (updatePhysics s).scroll_x ∧ (updatePhysics s).scroll_x ≤ 800) :=
  c5_camera 0 0 le_rfl (by norm_num)

/-- A reversal decision never changes the alive flag. -/
theorem moveEnemy_alive (plats : List Platform) (e : Enemy) :
    (moveEnemy plats e).alive = e.alive := by
  unfold moveEnemy
  split
  · dsimp only
    split <;> rfl
  · rfl

/-- A dead enemy is left untouched by the movement half. -/
theorem moveEnemy_dead (plats : List Platform) (e : Enemy) (h : e.alive = false) :
    moveEnemy plats e = e := by
  simp [moveEnemy, h]

/-- The fused move-and-check enemy loop of the code equals moving every
enemy first and then running the interaction checks over the moved
list. -/
theorem runEnemies_eq_check (pr : Rect) (plats : List Platform) :
    ∀ (es : List Enemy) (p : Body) (sc : ℕ),
      runEnemies pr plats p sc es = checkEnemies pr p sc (es.map (moveEnemy plats)) := by
  intro es
  induction es with
  | nil => intro p sc; rfl
  | cons e rest ih =>
    intro p sc
    cases hae : e.alive with
    | false =>
      have hme : moveEnemy plats e = e := moveEnemy_dead plats e hae
      simp [runEnemies, checkEnemies, hme, hae, ih]
    | true =>
      have hma : (moveEnemy plats e).alive = true := by rw [moveEnemy_alive, hae]
      simp [runEnemies, checkEnemies, hae, hma, ih]

/-- C2: the tick is extensionally equal to the composition that performs
the phases in the order stated by the Simulation Clock contract: input
read and velocity integration, horizontal pass, vertical pass, jump,
camera, Enemy Controller step for every enemy, then one Interaction
Evaluator pass (coin pickup, stomp/death with abort, goal) — for every
state the two produce identical results, even though the code interleaves
the stomp checks with the enemy movement and picks coins up earlier. -/
theorem c2_phase_order (s : GameState) : updatePhysics s = specOrderTick s := by
  unfold updatePhysics specOrderTick midState enemyGoalPhase interactionPhase enemyMovePhase
    coinPhase
  dsimp only
  rw [runEnemies_eq_check]

/-- C3: on a tick whose (single) enemy is alive and, after its move,
overlaps the player: if the stomp condition holds (falling player, bottom
edge minus tolerance at or above the enemy top) the enemy dies, exactly
200 is added to the post-coin score and the player's `vy` becomes the
fixed bounce `-8`; otherwise the whole tick resolves to the freshly
generated reset state (score 0, initial player, fresh coins/enemies,
`win` cleared) and the rest of the interaction processing is aborted. -/
theorem c3_stomp_or_death (s : GameState) (e : Enemy)
    (henem : (prePlayer s).enemies = [e])
    (halive : e.alive = true)
    (hov : rectsOverlap (bodyRect (prePlayer s).player)
      (enemyRect (moveEnemy (prePlayer s).platforms e)) = true) :
    (stompCond (prePlayer s).player (moveEnemy (prePlayer s).platforms e) = true →
      (updatePhysics s).enemies =
        [{ moveEnemy (prePlayer s).platforms e with alive := false }] ∧
      (updatePhysics s).score = (midState s).score + 200 ∧
      (updatePhysics s).player.vy = -8) ∧
    (stompCond (prePlayer s).player (moveEnemy (prePlayer s).platforms e) = false →
      updatePhysics s = resetState ∧ resetState.score = 0 ∧
      resetState.player = initialPlayer ∧ resetState.coins = levelCoins ∧
      resetState.enemies = [initialEnemy] ∧ resetState.win = false) := by
  constructor
  · intro hst
    have hrun : runEnemies (bodyRect (midState s).player) (midState s).platforms
        (midState s).player (midState s).score (midState s).enemies =
        some ({ (midState s).player with vy := -8 }, (midState s).score + 200,
          [{ moveEnemy (prePlayer s).platforms e with alive := false }]) := by
      simp only [midState, coinPhase_player, coinPhase_platforms, coinPhase_enemies, henem]
      simp [runEnemies, halive, hov, hst]
    refine ⟨?_, ?_, ?_⟩ <;>
      simp [updatePhysics, enemyGoalPhase, hrun]
  · intro hst
    have hrun : runEnemies (bodyRect (midState s).player) (midState s).platforms
        (midState s).player (midState s).score (midState s).enemies = none := by
      simp only [midState, coinPhase_player, coinPhase_platforms, coinPhase_enemies, henem]
      simp [runEnemies, halive, hov, hst]
    refine ⟨?_, rfl, rfl, rfl, rfl, rfl⟩
    simp [updatePhysics, enemyGoalPhase, hrun]

/-- C3 witness: a concrete falling player directly above a concrete enemy
stomps it: the enemy dies, the score rises by exactly 200 and the player
bounces. -/
theorem c3_stomp_witness :
    (updatePhysics sW3).enemies =
      [{ moveEnemy (prePlayer sW3).platforms eW3 with alive := false }] ∧
    (updatePhysics sW3).score = (midState sW3).score + 200 ∧
    (updatePhysics sW3).player.vy = -8 :=
  (c3_stomp_or_death sW3 eW3 (by with_unfolding_all decide) rfl
    (by with_unfolding_all decide)).1 (by with_unfolding_all decide)

/-- A single platform resolution only zeroes a velocity component, so it
preserves the velocity bounds. -/
theorem resolvePlat_velOK (dx dy : ℚ) (pr : Rect) (p : Body) (q : Platform)
    (h : velOK p) : velOK (resolvePlat dx dy pr p q) := by
  unfold resolvePlat
  dsimp only
  split
  · split <;> split <;>
      first
      | exact ⟨by norm_num, by norm_num, h.2.2.1, h.2.2.2⟩
      | exact ⟨h.1, h.2.1, by norm_num, by norm_num⟩
  · exact h

/-- The platform fold preserves the velocity bounds. -/
theorem foldl_resolvePlat_velOK (dx dy : ℚ) (pr : Rect) :
    ∀ (l : List Platform) (p : Body), velOK p →
      velOK (l.foldl (resolvePlat dx dy pr) p) := by
  intro l
  induction l with
  | nil => intro p h; exact h
  | cons q l ih =>
    intro p h
    exact ih (resolvePlat dx dy pr p q) (resolvePlat_velOK dx dy pr p q h)

/-- A whole collision pass preserves the velocity bounds. -/
theorem moveAndCollide_velOK (plats : List Platform) (dx dy : ℚ) (p : Body)
    (h : velOK p) : velOK (moveAndCollide plats dx dy p) := by
  unfold moveAndCollide
  dsimp only
  exact foldl_resolvePlat_velOK dx dy _ plats _ ⟨h.1, h.2.1, h.2.2.1, h.2.2.2⟩

/-- Integration clamps both velocity components into the stated bounds. -/
theorem integrate_velOK (s : GameState) : velOK (integrate s).player := by
  unfold integrate
  dsimp only
  exact ⟨(clamp_mem _ (-4) 4 (by norm_num)).1, (clamp_mem _ (-4) 4 (by norm_num)).2,
    (clamp_mem _ (-12) 12 (by norm_num)).1, (clamp_mem _ (-12) 12 (by norm_num)).2⟩

/-- The jump sets `vy` to `-10`, inside the bounds. -/
theorem jumpPhase_velOK (s : GameState) (h : velOK s.player) :
    velOK (jumpPhase s).player := by
  unfold jumpPhase
  split
  · exact ⟨h.1, h.2.1, by norm_num, by norm_num⟩
  · exact h

/-- A surviving enemy loop only ever sets the player's `vy` to the bounce
value `-8`, so it preserves the velocity bounds. -/
theorem runEnemies_velOK (pr : Rect) (plats : List Platform) :
    ∀ (es : List Enemy) (p : Body) (sc : ℕ) (p' : Body) (sc' : ℕ) (es' : List Enemy),
      velOK p → runEnemies pr plats p sc es = some (p', sc', es') → velOK p' := by
  intro es
  induction es with
  | nil =>
    intro p sc p' sc' es' h heq
    simp only [runEnemies, Option.some.injEq, Prod.mk.injEq] at heq
    obtain ⟨h1, _, _⟩ := heq
    exact h1 ▸ h
  | cons e rest ih =>
    intro p sc p' sc' es' h heq
    by_cases hae : e.alive = true
    · simp only [runEnemies, hae, if_true] at heq
      by_cases hov : rectsOverlap pr (enemyRect (moveEnemy plats e)) = true
      · simp only [hov, if_true] at heq
        by_cases hst : stompCond p (moveEnemy plats e) = true
        · simp only [hst, if_true] at heq
          rcases hrec : runEnemies pr plats { p with vy := -8 } (sc + 200) rest
            with _ | ⟨pp, scc, ess⟩
          · rw [hrec] at heq; exact absurd heq (by simp)
          · rw [hrec] at heq
            simp only [Option.some.injEq, Prod.mk.injEq] at heq
            obtain ⟨h1, _, _⟩ := heq
            exact h1 ▸ ih { p with vy := -8 } (sc + 200) pp scc ess
              ⟨h.1, h.2.1, by norm_num, by norm_num⟩ hrec
        · simp only [if_neg hst] at heq
          exact absurd heq (by simp)
      · simp only [if_neg hov] at heq
        rcases hrec : runEnemies pr plats p sc rest with _ | ⟨pp, scc, ess⟩
        · rw [hrec] at heq; exact absurd heq (by simp)
        · rw [hrec] at heq
          simp only [Option.some.injEq, Prod.mk.injEq] at heq
          obtain ⟨h1, _, _⟩ := heq
          exact h1 ▸ ih p sc pp scc ess h hrec
    · simp only [runEnemies, if_neg hae] at heq
      rcases hrec : runEnemies pr plats p sc rest with _ | ⟨pp, scc, ess⟩
      · rw [hrec] at heq; exact absurd heq (by simp)
      · rw [hrec] at heq
        simp only [Option.some.injEq, Prod.mk.injEq] at heq
        obtain ⟨h1, _, _⟩ := heq
        exact h1 ▸ ih p sc pp scc ess h hrec

/-- C4: from any state and any key combination, both right after the
tick's velocity integration and at the end of the whole tick, the
player's horizontal velocity lies in `[-4, 4]` and the vertical velocity
in `[-12, 12]`: integration clamps them there and every later operation
(collision zeroing, jump `-10`, stomp bounce `-8`, reset `0`) stays
inside the bounds. -/
theorem c4_velocity_bounds (s : GameState) :
    (-4 ≤ (integrate s).player.vx ∧ (integrate s).player.vx ≤ 4 ∧
     -12 ≤ (integrate s).player.vy ∧ (integrate s).player.vy ≤ 12) ∧
    (-4 ≤ (updatePhysics s).player.vx ∧ (updatePhysics s).player.vx ≤ 4 ∧
     -12 ≤ (updatePhysics s).player.vy ∧ (updatePhysics s).player.vy ≤ 12) := by
  refine ⟨integrate_velOK s, ?_⟩
  have h1 : velOK (integrate s).player := integrate_velOK s
  have h2 : velOK (collidePasses (integrate s)).player := by
    unfold collidePasses
    dsimp only
    exact moveAndCollide_velOK _ _ _ _ (moveAndCollide_velOK _ _ _ _ h1)
  have h3 : velOK (jumpPhase (collidePasses (integrate s))).player :=
    jumpPhase_velOK _ h2
  have h5 : velOK (midState s).player := by
    simpa only [midState, prePlayer, coinPhase_player, cameraPhase_player] using h3
  unfold updatePhysics enemyGoalPhase
  rcases hr : runEnemies (bodyRect (midState s).player) (midState s).platforms
      (midState s).player (midState s).score (midState s).enemies with _ | ⟨p, sc, es⟩
  · simp only [hr]
    refine ⟨?_, ?_, ?_, ?_⟩ <;> norm_num [resetState, initialPlayer]
  · simp only [hr]
    exact runEnemies_velOK _ _ _ _ _ _ _ _ h5 hr

/-- The sequential coin loop equals a per-coin map plus 100 points per
picked coin. -/
theorem coinsRun_eq (pr : Rect) :
    ∀ (cs : List Coin) (sc : ℕ),
      coinsRun pr cs sc = (cs.map (coinUpd pr), sc + 100 * cs.countP (coinHit pr)) := by
  intro cs
  induction cs with
  | nil => intro sc; simp [coinsRun]
  | cons c cs ih =>
    intro sc
    by_cases h : coinHit pr c = true
    · simp [coinsRun, coinUpd, h, ih, List.countP_cons]
      ring
    · simp [coinsRun, coinUpd, h, ih, List.countP_cons]

/-- C6: on a tick that completes without a death reset, the coin list is
the original list with each picked coin's alive flag cleared (a coin
never comes back to life: the per-coin update is monotone), and the coin
pass adds exactly 100 to the score per picked coin. -/
theorem c6_coins_one_way (s : GameState) (h : tickSurvives s = true) :
    (updatePhysics s).coins = s.coins.map (coinUpd (bodyRect (prePlayer s).player)) ∧
    (∀ c : Coin, (coinUpd (bodyRect (prePlayer s).player) c).alive = true →
      c.alive = true) ∧
    (midState s).score = s.score + 100 *
      s.coins.countP (coinHit (bodyRect (prePlayer s).player)) := by
  refine ⟨?_, ?_, ?_⟩
  · unfold tickSurvives at h
    rcases ho : enemyOutcome s with _ | ⟨p, sc, es⟩
    · rw [ho] at h; simp at h
    · have ho' := ho
      unfold enemyOutcome at ho'
      have hup : updatePhysics s = postEnemyState (midState s) p sc es :=
        enemyGoalPhase_some (midState s) p sc es ho'
      rw [hup, postEnemyState_coins]
      simp [midState, coinsRun_eq, prePlayer]
  · intro c
    unfold coinUpd
    split
    · intro hF
      exact absurd hF (by simp)
    · exact fun hT => hT
  · simp [midState, coinsRun_eq, prePlayer]

/-- C6 witness: the first tick from the freshly generated level completes
without a reset, so the theorem applies to it. -/
theorem c6_coins_witness :
    (updatePhysics resetState).coins =
      resetState.coins.map (coinUpd (bodyRect (prePlayer resetState).player)) ∧
    (∀ c : Coin, (coinUpd (bodyRect (prePlayer resetState).player) c).alive = true →
      c.alive = true) ∧
    (midState resetState).score = resetState.score + 100 *
      resetState.coins.countP (coinHit (bodyRect (prePlayer resetState).player)) :=
  c6_coins_one_way resetState (by with_unfolding_all decide)

/-- C9: on a tick that completes without a death reset, the won flag ends
true exactly when it was already true or the player's AABB overlaps the
goal trigger rectangle (so once set it stays set until a reset), and the
goal check alters nothing but the won flag: the final state is the
post-enemy state with only `win` recomputed. -/
theorem c9_goal_sticky (s : GameState) (h : tickSurvives s = true) :
    ((updatePhysics s).win = true ↔
      (s.win = true ∨
        rectsOverlap (bodyRect (prePlayer s).player) (goalRect s.goal) = true)) ∧
    (∃ p sc es, enemyOutcome s = some (p, sc, es) ∧
      updatePhysics s = postEnemyState (midState s) p sc es) := by
  unfold tickSurvives at h
  rcases ho : enemyOutcome s with _ | ⟨p, sc, es⟩
  · rw [ho] at h; simp at h
  · have ho' := ho
    unfold enemyOutcome at ho'
    have hup : updatePhysics s = postEnemyState (midState s) p sc es :=
      enemyGoalPhase_some (midState s) p sc es ho'
    refine ⟨?_, p, sc, es, rfl, hup⟩
    rw [hup, postEnemyState_win]
    simp [midState, prePlayer, Bool.or_eq_true]

/-- C9 witness: instantiated on the first tick from the freshly generated
level. -/
theorem c9_goal_witness :
    ((updatePhysics resetState).win = true ↔
      (resetState.win = true ∨
        rectsOverlap (bodyRect (prePlayer resetState).player)
          (goalRect resetState.goal) = true)) ∧
    (∃ p sc es, enemyOutcome resetState = some (p, sc, es) ∧
      updatePhysics resetState = postEnemyState (midState resetState) p sc es) :=
  c9_goal_sticky resetState (by with_unfolding_all decide)

end MarioOS
